import Mathlib

set_option maxRecDepth 8000
set_option linter.unusedVariables false

/-!
Shallow embedding of the version-resolution and installer-chain core of the
gardener-installation repository:

* src/ts/versions/installations.ts — the version registry, the resolver
  `getInstallation`, and the state-conversion hook `convertStateValues`;
* src/ts/versions/v1.80/installation.ts — the v1.80 installer's `install`
  step (validation, apiserver version floor, delegation to the v1.74 band);
* the Gardener control-plane deployment task (`Gardener.do`) — two-phase
  chart application with per-service-account credential minting in between.

Version strings are embedded by their parsed node-semver value: the main
components major.minor.patch plus the prerelease identifier list.  node-semver
build metadata takes part neither in comparison nor in range matching and is
dropped by the embedding.  A version string that node-semver cannot parse is
embedded as `none`: `satisfies` returns `false` for it, so it matches no
registry range.
-/

/-- Parsed node-semver version value: main components plus prerelease
identifiers (build metadata dropped — it is ignored by node-semver
comparisons and range matching). -/
structure SemVer where
  major : Nat
  minor : Nat
  patch : Nat
  prerelease : List String
deriving DecidableEq

/-- node-semver `compareIdentifiers` restricted to numeric identifiers:
-1, 0 or 1. -/
def compareIdentifiers (a b : Nat) : Int :=
  if a < b then -1 else if b < a then 1 else 0

/-- node-semver `SemVer.compareMain`: compare major, then minor, then patch;
the prerelease list is ignored. -/
def SemVer.compareMain (a b : SemVer) : Int :=
  if compareIdentifiers a.major b.major ≠ 0 then compareIdentifiers a.major b.major
  else if compareIdentifiers a.minor b.minor ≠ 0 then compareIdentifiers a.minor b.minor
  else compareIdentifiers a.patch b.patch

/-- A registry range pattern of the shape `vMAJOR.MINOR.x` — every key of the
`versions` record in installations.ts has this shape. -/
structure XRange where
  major : Nat
  minor : Nat
deriving DecidableEq

/-- node-semver `satisfies(version, range)` for an `x`-range `vM.m.x`:
an unparseable version satisfies nothing; a parsed version satisfies the
range when its major and minor components match and it has no prerelease
identifiers (node-semver excludes prerelease versions from plain ranges). -/
def satisfies (version : Option SemVer) (range : XRange) : Bool :=
  match version with
  | none => false
  | some v => v.major == range.major && v.minor == range.minor && v.prerelease.isEmpty

/-- The installer classes imported by installations.ts; the registry binds
every band to one of these nine constructors. -/
inductive InstallationConstructor where
  | Installation_1_46
  | Installation_1_47
  | Installation_1_50
  | Installation_1_51
  | Installation_1_62
  | Installation_1_74
  | Installation_1_80
  | Installation_1_81
  | Installation_1_90
deriving DecidableEq

/-- The `versions` record of installations.ts, in declaration order (a JS
object literal with non-numeric string keys enumerates its keys in insertion
order, which is what `Object.keys` returns). -/
def versions : List (XRange × InstallationConstructor) := [
  (⟨1, 46⟩, .Installation_1_46),
  (⟨1, 47⟩, .Installation_1_47),
  (⟨1, 48⟩, .Installation_1_47),
  (⟨1, 49⟩, .Installation_1_47),
  (⟨1, 50⟩, .Installation_1_50),
  (⟨1, 51⟩, .Installation_1_51),
  (⟨1, 52⟩, .Installation_1_51),
  (⟨1, 53⟩, .Installation_1_51),
  (⟨1, 54⟩, .Installation_1_51),
  (⟨1, 55⟩, .Installation_1_51),
  (⟨1, 56⟩, .Installation_1_51),
  (⟨1, 57⟩, .Installation_1_51),
  (⟨1, 58⟩, .Installation_1_51),
  (⟨1, 59⟩, .Installation_1_51),
  (⟨1, 60⟩, .Installation_1_51),
  (⟨1, 61⟩, .Installation_1_51),
  (⟨1, 62⟩, .Installation_1_62),
  (⟨1, 63⟩, .Installation_1_62),
  (⟨1, 64⟩, .Installation_1_62),
  (⟨1, 65⟩, .Installation_1_62),
  (⟨1, 66⟩, .Installation_1_62),
  (⟨1, 67⟩, .Installation_1_62),
  (⟨1, 68⟩, .Installation_1_62),
  (⟨1, 69⟩, .Installation_1_62),
  (⟨1, 70⟩, .Installation_1_62),
  (⟨1, 71⟩, .Installation_1_62),
  (⟨1, 72⟩, .Installation_1_62),
  (⟨1, 73⟩, .Installation_1_62),
  (⟨1, 74⟩, .Installation_1_74),
  (⟨1, 75⟩, .Installation_1_74),
  (⟨1, 76⟩, .Installation_1_74),
  (⟨1, 77⟩, .Installation_1_74),
  (⟨1, 78⟩, .Installation_1_74),
  (⟨1, 79⟩, .Installation_1_74),
  (⟨1, 80⟩, .Installation_1_80),
  (⟨1, 81⟩, .Installation_1_81),
  (⟨1, 82⟩, .Installation_1_81),
  (⟨1, 83⟩, .Installation_1_81),
  (⟨1, 84⟩, .Installation_1_81),
  (⟨1, 85⟩, .Installation_1_81),
  (⟨1, 86⟩, .Installation_1_81),
  (⟨1, 87⟩, .Installation_1_81),
  (⟨1, 88⟩, .Installation_1_81),
  (⟨1, 89⟩, .Installation_1_81),
  (⟨1, 90⟩, .Installation_1_90),
  (⟨1, 91⟩, .Installation_1_90),
  (⟨1, 92⟩, .Installation_1_90),
  (⟨1, 93⟩, .Installation_1_90),
  (⟨1, 94⟩, .Installation_1_90),
  (⟨1, 95⟩, .Installation_1_90)
]

/-- The `VersionNotFound` exception of installations.ts; it carries the
version string it was constructed with. -/
structure VersionNotFound where
  version : Option SemVer
deriving DecidableEq

/-- installations.ts `getInstallation`: find the first registry key the
version satisfies and return the bound installer constructor; throw
`VersionNotFound(version)` when no key matches.  `Except.error` embeds the
thrown exception. -/
def getInstallation (version : Option SemVer) :
    Except VersionNotFound InstallationConstructor :=
  match versions.find? (fun entry => satisfies version entry.1) with
  | some entry => .ok entry.2
  | none => .error ⟨version⟩

/-- Modelled from the spec: the sub-component record of a versioned state
(src/ts/Landscape.ts and src/ts/versions/v1.46/Values.ts are not in src/).
Spec §3: the state carries "a sub-field recording the version of an embedded
API server component"; the v1.80 installer reads and writes
`stateValues.apiserver.version`. -/
structure SubComponent where
  version : SemVer
deriving DecidableEq

/-- Modelled from the spec: a structurally valid versioned state
(src/ts/Landscape.ts is not in src/).  Spec §3: a version tag plus a nested
configuration tree; `apiserver` is the sub-component the v1.80 installer
touches and `rest` stands for the remainder of the configuration tree, which
the v1.80 installer never reads or writes. -/
structure VersionedState where
  version : SemVer
  apiserver : SubComponent
  rest : String
deriving DecidableEq

/-- Modelled from the spec: a persisted state blob before structural
validation (the validators of src/ts/versions/v1.46/Values.ts are not in
src/).  Spec §4.1: validation checks a "non-empty version tag" and "expected
sub-objects present"; a `none` field is a missing one. -/
structure RawState where
  version : Option SemVer
  apiserver : Option SubComponent
  rest : String
deriving DecidableEq

/-- Modelled from the spec: `isStateValues` of v1.46/Values.ts (not in src/).
Spec §4.1: the blob is a versioned state when its version tag and its
expected sub-objects are present. -/
def isStateValues (s : RawState) : Bool :=
  s.version.isSome && s.apiserver.isSome

/-- The `MalformedStateError` of the spec (§7): carries the names of the
structural fields found missing. -/
structure MalformedStateError where
  missing : List String
deriving DecidableEq

/-- Modelled from the spec: `validateState` of v1.46/Values.ts (not in
src/).  Spec §4.1/§7: the error produced for an invalid blob "must include
which fields were expected". -/
def validateState (s : RawState) : MalformedStateError :=
  ⟨(if s.version.isSome then [] else ["version"])
    ++ (if s.apiserver.isSome then [] else ["apiserver"])⟩

/-- Projection of a raw blob to a versioned state, defined exactly when
`isStateValues` holds: both required fields are present. -/
def RawState.validated (s : RawState) : Option VersionedState :=
  match s.version, s.apiserver with
  | some v, some a => some ⟨v, a, s.rest⟩
  | _, _ => none

/-- Modelled from the spec: `emptyState` of v1.46/Values.ts (not in src/).
Spec §4.1: for a fresh install the validator "returns a minimal empty state
tagged with the target version"; §4.3: a freshly synthesized state satisfies
the floor checks of the band being installed. -/
def emptyState (version : SemVer) : VersionedState :=
  ⟨version, ⟨version⟩, ""⟩

/-- The desired target configuration (`VersionedValues` of flow/Flow.ts, not
in src/); only its version tag is read by the code under study. -/
structure VersionedValues where
  version : SemVer
deriving DecidableEq

/-- `targetVirtualClusterVersion` of v1.80/installation.ts:
`new SemVer('v1.23.16')`.  The source stores its `.raw` field back into the
state; in this embedding, where version strings are carried by their parsed
value, that is the value itself. -/
def targetVirtualClusterVersion : SemVer := ⟨1, 23, 16, []⟩

/-- Lines 23–25 of v1.80/installation.ts: when the state's apiserver version
compares older than `targetVirtualClusterVersion` on main components, raise
it to exactly that floor; otherwise leave the state untouched. -/
def apiserverFloor (stateValues : VersionedState) : VersionedState :=
  if SemVer.compareMain stateValues.apiserver.version targetVirtualClusterVersion = -1 then
    { stateValues with apiserver := { stateValues.apiserver with version := targetVirtualClusterVersion } }
  else stateValues

/-- `Installation.install` of v1.80/installation.ts up to its delegation:
a `null` prior state is replaced by `emptyState(inputValues.version)`; a
present blob failing `isStateValues` makes the method throw
`validateState(stateValues)` (embedded as `Except.error`); then the
apiserver floor is applied.  `Except.ok st` means the method delegates via
`super.install(flow, st, inputValues)` to the v1.74 installer (whose code is
not in src/) with the possibly corrected state `st`. -/
def Installation_1_80_install (stateValues : Option RawState)
    (inputValues : VersionedValues) : Except MalformedStateError VersionedState :=
  match stateValues with
  | none => .ok (apiserverFloor (emptyState inputValues.version))
  | some s =>
    match s.validated with
    | some vs => .ok (apiserverFloor vs)
    | none => .error (validateState s)

/-- installations.ts `convertStateValues`: validates that the state's own
version tag satisfies some registered range, throws
`VersionNotFound(state.version)` otherwise, and returns the state unchanged
(the conversion itself is an explicit todo in the source).  The
`targetVersion` argument is never read. -/
def convertStateValues (state : VersionedState) (targetVersion : Option SemVer) :
    Except VersionNotFound VersionedState :=
  match versions.find? (fun entry => satisfies (some state.version) entry.1) with
  | some _ => .ok state
  | none => .error ⟨some state.version⟩

/-- The two Helm charts applied by the Gardener control-plane task:
`gardener-application` first, `gardener-runtime` second. -/
inductive ChartId where
  | application
  | runtime
deriving DecidableEq

/-- Observable external actions of one run of `Gardener.do`:
waiting for the virtual cluster, applying one of the two charts, and minting
the kubeconfig credential for one service account (`viaCluster` records
whether the virtual cluster was contacted for it, as opposed to the dry-run
placeholder path). -/
inductive GEvent where
  | waitVirtualCluster
  | applyChart (chart : ChartId)
  | mintCredential (serviceAccount : String) (viaCluster : Bool)
deriving DecidableEq

/-- An infrastructure error from the executor or cluster client (timeouts,
apply failures); propagated unchanged. -/
structure InfraError where
  msg : String
deriving DecidableEq

/-- Environment of one `Gardener.do` run: the outcomes the external
collaborators would produce for each call the task can make. -/
structure GardenerEnv where
  waitVirtualClusterReady : Except InfraError Unit
  helmCreateOrUpdate : ChartId → Except InfraError Unit
  kubeconfigForServiceAccount : String → Except InfraError String

/-- The four kubeconfig values `Gardener.do` writes into the chart values
(`global.apiserver.kubeconfig` and so on) between the two chart
applications. -/
structure GardenerKubeconfigs where
  apiserver : String
  controller : String
  scheduler : String
  admission : String
deriving DecidableEq

/-- `Gardener.getKubeConfigForServiceAccount`: without a virtual client
(dry run) it returns the placeholder string `dumy-` + name without any
cluster call; with one it requests a kubeconfig from the virtual cluster.
The event list records the minting action and whether the cluster was
contacted. -/
def getKubeConfigForServiceAccount (env : GardenerEnv) (virtualClient : Bool)
    (name : String) : List GEvent × Except InfraError String :=
  if virtualClient then
    ([.mintCredential name true], env.kubeconfigForServiceAccount name)
  else
    ([.mintCredential name false], .ok ("dumy-" ++ name))

/-- `Gardener.do`: unless dry-run, wait for the virtual cluster; apply the
application chart; mint the kubeconfig for each of the four service accounts
in order; apply the runtime chart.  Returns the trace of external actions in
order together with the outcome (the minted kubeconfigs on success, the
first error otherwise — an `await` that throws aborts the method). -/
def gardenerDo (dryRun : Bool) (env : GardenerEnv) :
    List GEvent × Except InfraError GardenerKubeconfigs :=
  let waitResult : List GEvent × Except InfraError Bool :=
    if dryRun then ([], .ok false)
    else ([.waitVirtualCluster],
      match env.waitVirtualClusterReady with
      | .ok _ => .ok true
      | .error e => .error e)
  match waitResult with
  | (t0, .error e) => (t0, .error e)
  | (t0, .ok virtualClient) =>
    let t1 := t0 ++ [.applyChart .application]
    match env.helmCreateOrUpdate .application with
    | .error e => (t1, .error e)
    | .ok _ =>
      match getKubeConfigForServiceAccount env virtualClient "gardener-apiserver" with
      | (ta, .error e) => (t1 ++ ta, .error e)
      | (ta, .ok kcApiserver) =>
        match getKubeConfigForServiceAccount env virtualClient "gardener-controller-manager" with
        | (tb, .error e) => (t1 ++ ta ++ tb, .error e)
        | (tb, .ok kcController) =>
          match getKubeConfigForServiceAccount env virtualClient "gardener-scheduler" with
          | (tc, .error e) => (t1 ++ ta ++ tb ++ tc, .error e)
          | (tc, .ok kcScheduler) =>
            match getKubeConfigForServiceAccount env virtualClient "gardener-admission-controller" with
            | (td, .error e) => (t1 ++ ta ++ tb ++ tc ++ td, .error e)
            | (td, .ok kcAdmission) =>
              let t2 := t1 ++ ta ++ tb ++ tc ++ td ++ [.applyChart .runtime]
              match env.helmCreateOrUpdate .runtime with
              | .error e => (t2, .error e)
              | .ok _ => (t2, .ok ⟨kcApiserver, kcController, kcScheduler, kcAdmission⟩)

instance instDecidableEqExcept {e a : Type} [DecidableEq e] [DecidableEq a] :
    DecidableEq (Except e a) := fun
  | .ok x, .ok y =>
    if h : x = y then isTrue (by rw [h]) else isFalse (fun hh => h (Except.ok.inj hh))
  | .ok _, .error _ => isFalse (fun hh => Except.noConfusion hh)
  | .error _, .ok _ => isFalse (fun hh => Except.noConfusion hh)
  | .error x, .error y =>
    if h : x = y then isTrue (by rw [h]) else isFalse (fun hh => h (Except.error.inj hh))

/-- Environment in which every external call of the Gardener task
succeeds. -/
def envAllOk : GardenerEnv :=
  ⟨.ok (), fun _ => .ok (), fun name => .ok ("kubeconfig-" ++ name)⟩

/-- A list's `find?` returns the element at index `i` when the predicate
holds there and fails strictly before `i`. -/
theorem find_eq_of_first {α : Type} (p : α → Bool) :
    ∀ (l : List α) (i : Fin l.length),
      p (l.get i) = true →
      (∀ j : Fin l.length, j.val < i.val → p (l.get j) = false) →
      l.find? p = some (l.get i) := by
  intro l
  induction l with
  | nil => exact fun i => absurd i.isLt (by simp)
  | cons a l ih =>
    intro i hp hmin
    rcases i with ⟨iv, hi⟩
    cases iv with
    | zero =>
      exact List.find?_cons_of_pos _ hp
    | succ n =>
      have ha : p a = false := hmin ⟨0, Nat.succ_pos _⟩ (Nat.succ_pos n)
      rw [List.find?_cons_of_neg _ (by simp [ha])]
      exact ih ⟨n, Nat.lt_of_succ_lt_succ hi⟩ hp
        (fun j hj => hmin ⟨j.val + 1, Nat.succ_lt_succ j.isLt⟩ (Nat.succ_lt_succ hj))

/-- The first components of the registry entries are pairwise distinct. -/
theorem versions_get_fst_inj :
    ∀ i j : Fin versions.length, (versions.get i).1 = (versions.get j).1 → i = j := by
  decide

/-- C1: `getInstallation(V)` scans the registry entries in declaration order
(the v1.46.x entry first, the v1.95.x entry last) and returns the installer
constructor bound to the first range pattern `V` satisfies, where a pattern
`1.74.x` is satisfied by any patch release of that minor version; when no
entry's pattern is satisfied it throws `VersionNotFound`. -/
theorem getInstallation_first_match :
    (versions.head? = some (⟨1, 46⟩, .Installation_1_46)
      ∧ versions.getLast? = some (⟨1, 95⟩, .Installation_1_90))
    ∧ (∀ patch : Nat, satisfies (some ⟨1, 74, patch, []⟩) ⟨1, 74⟩ = true)
    ∧ (∀ (v : Option SemVer) (i : Fin versions.length),
        satisfies v (versions.get i).1 = true →
        (∀ j : Fin versions.length, j.val < i.val → satisfies v (versions.get j).1 = false) →
        getInstallation v = .ok (versions.get i).2)
    ∧ (∀ v : Option SemVer,
        (∀ entry ∈ versions, satisfies v entry.1 = false) →
        getInstallation v = .error ⟨v⟩) := by
  refine ⟨⟨rfl, rfl⟩, fun patch => rfl, ?_, ?_⟩
  · intro v i hp hmin
    have h := find_eq_of_first (fun entry => satisfies v entry.1) versions i hp hmin
    simp [getInstallation, h]
  · intro v hall
    have h : versions.find? (fun entry => satisfies v entry.1) = none :=
      List.find?_eq_none.mpr (fun x hx => by simp [hall x hx])
    simp [getInstallation, h]

theorem getInstallation_first_match_witness :
    getInstallation (some ⟨1, 74, 9, []⟩) = .ok .Installation_1_74 :=
  getInstallation_first_match.2.2.1 (some ⟨1, 74, 9, []⟩) ⟨28, by decide⟩
    (by decide) (by decide)

/-- C2: `getInstallation(V)` throws `VersionNotFound` carrying exactly `V`
if and only if `V` satisfies no declared range (the declared bands being
v1.46.x through v1.95.x); for every `V` satisfying some declared band it
returns a constructor and never throws; in particular resolving 1.96.0,
above the highest declared band, throws `VersionNotFound` carrying 1.96.0. -/
theorem getInstallation_not_found_iff :
    (∀ v : Option SemVer,
        getInstallation v = .error ⟨v⟩ ↔ ∀ entry ∈ versions, satisfies v entry.1 = false)
    ∧ (∀ v : Option SemVer,
        (∃ entry ∈ versions, satisfies v entry.1 = true) →
        ∃ c, getInstallation v = .ok c)
    ∧ versions.map Prod.fst = (List.range' 46 50).map (fun m => (⟨1, m⟩ : XRange))
    ∧ getInstallation (some ⟨1, 96, 0, []⟩) = .error ⟨some ⟨1, 96, 0, []⟩⟩ := by
  refine ⟨?_, ?_, by decide, by decide⟩
  · intro v
    constructor
    · intro h entry hmem
      rcases hfind : versions.find? (fun entry => satisfies v entry.1) with _ | pr
      · simpa using List.find?_eq_none.mp hfind entry hmem
      · simp [getInstallation, hfind] at h
    · intro hall
      have h : versions.find? (fun entry => satisfies v entry.1) = none :=
        List.find?_eq_none.mpr (fun x hx => by simp [hall x hx])
      simp [getInstallation, h]
  · intro v hex
    obtain ⟨entry, hmem, hsat⟩ := hex
    rcases hfind : versions.find? (fun entry => satisfies v entry.1) with _ | pr
    · exact absurd hsat (by simpa using List.find?_eq_none.mp hfind entry hmem)
    · exact ⟨pr.2, by simp [getInstallation, hfind]⟩

theorem getInstallation_not_found_iff_witness :
    ∃ c, getInstallation (some ⟨1, 95, 4, []⟩) = .ok c :=
  getInstallation_not_found_iff.2.1 (some ⟨1, 95, 4, []⟩)
    ⟨(⟨1, 95⟩, .Installation_1_90), by decide, by decide⟩

/-- C4: the declared range patterns of the registry are pairwise disjoint:
no version value satisfies the patterns of two different registry entries. -/
theorem versions_ranges_disjoint (i j : Fin versions.length) (v : Option SemVer)
    (hi : satisfies v (versions.get i).1 = true)
    (hj : satisfies v (versions.get j).1 = true) : i = j := by
  rcases v with _ | sv
  · simp [satisfies] at hi
  · apply versions_get_fst_inj
    have hi' := hi
    have hj' := hj
    simp only [satisfies, Bool.and_eq_true, beq_iff_eq, List.isEmpty_iff] at hi' hj'
    have heq : (⟨sv.major, sv.minor⟩ : XRange) = (versions.get i).1 := by
      cases hval : (versions.get i).1
      rw [hval] at hi'
      simp_all
    have heq2 : (⟨sv.major, sv.minor⟩ : XRange) = (versions.get j).1 := by
      cases hval : (versions.get j).1
      rw [hval] at hj'
      simp_all
    rw [← heq, ← heq2]

theorem versions_ranges_disjoint_witness :
    (⟨34, by decide⟩ : Fin versions.length) = ⟨34, by decide⟩ :=
  versions_ranges_disjoint ⟨34, by decide⟩ ⟨34, by decide⟩ (some ⟨1, 80, 2, []⟩)
    (by decide) (by decide)

/-- C3: for every validated prior state whose apiserver version compares
older than the v1.80 floor on semver main components, the v1.80 installer's
install delegates with the apiserver version set to exactly the floor
`targetVirtualClusterVersion` (1.23.16) — not lower and not higher; in
particular prior apiserver version 1.20.0 with target version 1.80.3 yields
apiserver version 1.23.16. -/
theorem install_1_80_raises_floor :
    (∀ (s : RawState) (vs : VersionedState) (iv : VersionedValues),
        s.validated = some vs →
        SemVer.compareMain vs.apiserver.version targetVirtualClusterVersion = -1 →
        Installation_1_80_install (some s) iv =
          .ok { vs with apiserver := { vs.apiserver with version := targetVirtualClusterVersion } })
    ∧ (∃ s', Installation_1_80_install
          (some ⟨some ⟨1, 74, 5, []⟩, some ⟨⟨1, 20, 0, []⟩⟩, ""⟩) ⟨⟨1, 80, 3, []⟩⟩ = .ok s'
        ∧ s'.apiserver.version = ⟨1, 23, 16, []⟩) := by
  constructor
  · intro s vs iv hval hcmp
    simp [Installation_1_80_install, hval, apiserverFloor, hcmp]
  · exact ⟨⟨⟨1, 74, 5, []⟩, ⟨⟨1, 23, 16, []⟩⟩, ""⟩, by decide, rfl⟩

theorem install_1_80_raises_floor_witness :
    Installation_1_80_install
        (some ⟨some ⟨1, 90, 0, []⟩, some ⟨⟨1, 22, 4, []⟩⟩, "x"⟩) ⟨⟨1, 80, 3, []⟩⟩
      = .ok ⟨⟨1, 90, 0, []⟩, ⟨⟨1, 23, 16, []⟩⟩, "x"⟩ :=
  install_1_80_raises_floor.1 ⟨some ⟨1, 90, 0, []⟩, some ⟨⟨1, 22, 4, []⟩⟩, "x"⟩
    ⟨⟨1, 90, 0, []⟩, ⟨⟨1, 22, 4, []⟩⟩, "x"⟩ ⟨⟨1, 80, 3, []⟩⟩ (by decide) (by decide)

/-- C5: a present prior state blob lacking required structural fields makes
the install fail with the `MalformedStateError` produced by `validateState`,
which names exactly the missing fields; the error is returned to the caller
before any delegation, not swallowed; in particular a blob missing its
version tag fails with an error naming `version`. -/
theorem install_1_80_malformed_state :
    (∀ (s : RawState) (iv : VersionedValues),
        isStateValues s = false →
        Installation_1_80_install (some s) iv = .error (validateState s))
    ∧ (∀ s : RawState,
        ("version" ∈ (validateState s).missing ↔ s.version = none)
          ∧ ("apiserver" ∈ (validateState s).missing ↔ s.apiserver = none))
    ∧ (∀ (iv : VersionedValues) (api : SubComponent) (r : String),
        Installation_1_80_install (some ⟨none, some api, r⟩) iv = .error ⟨["version"]⟩) := by
  refine ⟨?_, ?_, ?_⟩
  · intro s iv hbad
    have hval : s.validated = none := by
      rcases s with ⟨v, a, r⟩
      rcases v with _ | v <;> rcases a with _ | a <;>
        simp_all [isStateValues, RawState.validated]
    simp [Installation_1_80_install, hval]
  · intro s
    rcases s with ⟨v, a, r⟩
    rcases v with _ | v <;> rcases a with _ | a <;>
      simp [validateState]
  · intro iv api r
    simp [Installation_1_80_install, RawState.validated, validateState]

theorem install_1_80_malformed_state_witness :
    Installation_1_80_install (some ⟨none, none, ""⟩) ⟨⟨1, 80, 0, []⟩⟩
      = .error (validateState ⟨none, none, ""⟩) :=
  install_1_80_malformed_state.1 ⟨none, none, ""⟩ ⟨⟨1, 80, 0, []⟩⟩ (by decide)

/-- C6: install with an absent prior state synthesizes the minimal empty
state tagged with the target version `inputValues.version` and then runs the
floor check on it; the fresh-install path always returns successfully —
it never fails a state-validation or floor check. -/
theorem install_1_80_fresh_state (iv : VersionedValues) :
    Installation_1_80_install none iv = .ok (apiserverFloor (emptyState iv.version))
    ∧ (emptyState iv.version).version = iv.version
    ∧ (apiserverFloor (emptyState iv.version)).version = iv.version := by
  refine ⟨rfl, rfl, ?_⟩
  unfold apiserverFloor
  split <;> rfl

/-- C7: `convertStateValues` validates only that the state's own version tag
satisfies some registered range — throwing `VersionNotFound` carrying the
state's version otherwise — and returns its input unchanged; the
`targetVersion` argument never influences the outcome. -/
theorem convertStateValues_spec :
    (∀ (s : VersionedState) (t : Option SemVer),
        convertStateValues s t =
          if versions.any (fun entry => satisfies (some s.version) entry.1) then .ok s
          else .error ⟨some s.version⟩)
    ∧ (∀ (s : VersionedState) (t t' : Option SemVer),
        convertStateValues s t = convertStateValues s t')
    ∧ (∀ (s : VersionedState) (t : Option SemVer) (out : VersionedState),
        convertStateValues s t = .ok out → out = s) := by
  refine ⟨?_, fun s t t' => rfl, ?_⟩
  · intro s t
    rcases hfind : versions.find? (fun entry => satisfies (some s.version) entry.1) with _ | pr
    · have hany : versions.any (fun entry => satisfies (some s.version) entry.1) = false := by
        rw [Bool.eq_false_iff]
        intro hany
        obtain ⟨x, hx, hpx⟩ := List.any_eq_true.mp hany
        simpa [hpx] using List.find?_eq_none.mp hfind x hx
      simp [convertStateValues, hfind, hany]
    · have hp : satisfies (some s.version) pr.1 = true := by
        simpa using List.find?_some hfind
      have hmem : pr ∈ versions := List.mem_of_find?_eq_some hfind
      have hany : versions.any (fun entry => satisfies (some s.version) entry.1) = true :=
        List.any_eq_true.mpr ⟨pr, hmem, by simpa using hp⟩
      simp [convertStateValues, hfind, hany]
  · intro s t out h
    rcases hfind : versions.find? (fun entry => satisfies (some s.version) entry.1) with _ | pr <;>
      simp [convertStateValues, hfind] at h
    exact h.symm

theorem convertStateValues_spec_witness :
    (⟨⟨1, 50, 1, []⟩, ⟨⟨1, 22, 0, []⟩⟩, ""⟩ : VersionedState)
      = ⟨⟨1, 50, 1, []⟩, ⟨⟨1, 22, 0, []⟩⟩, ""⟩ :=
  convertStateValues_spec.2.2 ⟨⟨1, 50, 1, []⟩, ⟨⟨1, 22, 0, []⟩⟩, ""⟩ none
    ⟨⟨1, 50, 1, []⟩, ⟨⟨1, 22, 0, []⟩⟩, ""⟩ (by decide)

/-- C10: for a validated prior state, the v1.80 installer's own step
preserves the state's version tag and the rest of the configuration tree —
apiserver.version is the only field it can change — and when the apiserver
version does not compare below the floor the delegated state is exactly the
prior state, apiserver version included. -/
theorem install_1_80_frame :
    ∀ (s : RawState) (vs : VersionedState) (iv : VersionedValues) (s' : VersionedState),
      s.validated = some vs →
      Installation_1_80_install (some s) iv = .ok s' →
      (s'.version = vs.version ∧ s'.rest = vs.rest)
      ∧ (SemVer.compareMain vs.apiserver.version targetVirtualClusterVersion ≠ -1 → s' = vs) := by
  intro s vs iv s' hval hok
  have hs' : s' = apiserverFloor vs := by
    simp [Installation_1_80_install, hval] at hok
    exact hok.symm
  subst hs'
  unfold apiserverFloor
  split
  next hcmp => exact ⟨⟨rfl, rfl⟩, fun hne => absurd hcmp hne⟩
  next hcmp => exact ⟨⟨rfl, rfl⟩, fun _ => rfl⟩

theorem install_1_80_frame_witness :
    (⟨⟨1, 81, 0, []⟩, ⟨⟨1, 24, 0, []⟩⟩, "k"⟩ : VersionedState)
      = ⟨⟨1, 81, 0, []⟩, ⟨⟨1, 24, 0, []⟩⟩, "k"⟩ :=
  (install_1_80_frame ⟨some ⟨1, 81, 0, []⟩, some ⟨⟨1, 24, 0, []⟩⟩, "k"⟩
      ⟨⟨1, 81, 0, []⟩, ⟨⟨1, 24, 0, []⟩⟩, "k"⟩ ⟨⟨1, 81, 0, []⟩⟩
      ⟨⟨1, 81, 0, []⟩, ⟨⟨1, 24, 0, []⟩⟩, "k"⟩ (by decide) (by decide)).2 (by decide)

/-- C8: in every run of `Gardener.do`, every per-service-account
credential-minting action strictly follows the application-chart apply
(every event before the mints is the readiness wait or the application
apply), the runtime-chart apply strictly follows all four credential
mintings, and if the application-chart apply fails the runtime chart is
never applied. -/
theorem gardener_do_two_phase (d : Bool) (env : GardenerEnv) :
    (∀ sa vc, GEvent.mintCredential sa vc ∈ (gardenerDo d env).1 →
        (gardenerDo d env).1.take (if d then 1 else 2)
            = (if d then [] else [GEvent.waitVirtualCluster])
              ++ [GEvent.applyChart ChartId.application]
          ∧ GEvent.mintCredential sa vc ∈ (gardenerDo d env).1.drop (if d then 1 else 2))
    ∧ (GEvent.applyChart ChartId.runtime ∈ (gardenerDo d env).1 →
        (gardenerDo d env).1 =
          (if d then [] else [GEvent.waitVirtualCluster])
            ++ [GEvent.applyChart ChartId.application,
                GEvent.mintCredential "gardener-apiserver" (!d),
                GEvent.mintCredential "gardener-controller-manager" (!d),
                GEvent.mintCredential "gardener-scheduler" (!d),
                GEvent.mintCredential "gardener-admission-controller" (!d),
                GEvent.applyChart ChartId.runtime])
    ∧ (∀ e, env.helmCreateOrUpdate ChartId.application = .error e →
        GEvent.applyChart ChartId.runtime ∉ (gardenerDo d env).1) := by
  cases d <;>
    rcases hw : env.waitVirtualClusterReady with ⟨e0⟩ | ⟨u0⟩ <;>
    rcases ha : env.helmCreateOrUpdate ChartId.application with ⟨e1⟩ | ⟨u1⟩ <;>
    rcases hr : env.helmCreateOrUpdate ChartId.runtime with ⟨e2⟩ | ⟨u2⟩ <;>
    rcases h1 : env.kubeconfigForServiceAccount "gardener-apiserver" with ⟨f1⟩ | ⟨k1⟩ <;>
    rcases h2 : env.kubeconfigForServiceAccount "gardener-controller-manager" with ⟨f2⟩ | ⟨k2⟩ <;>
    rcases h3 : env.kubeconfigForServiceAccount "gardener-scheduler" with ⟨f3⟩ | ⟨k3⟩ <;>
    rcases h4 : env.kubeconfigForServiceAccount "gardener-admission-controller" with ⟨f4⟩ | ⟨k4⟩ <;>
    refine ⟨fun sa vc hmem => ?_, fun hmem => ?_, fun e he => ?_⟩ <;>
    simp_all [gardenerDo, getKubeConfigForServiceAccount]

theorem gardener_do_two_phase_witness :
    (gardenerDo false envAllOk).1 =
      [GEvent.waitVirtualCluster, .applyChart .application,
       .mintCredential "gardener-apiserver" true,
       .mintCredential "gardener-controller-manager" true,
       .mintCredential "gardener-scheduler" true,
       .mintCredential "gardener-admission-controller" true,
       .applyChart .runtime] :=
  (gardener_do_two_phase false envAllOk).2.1 (by decide)

/-- C9: constructed with the dry-run flag, the Gardener task never contacts
the virtual cluster: the readiness wait is skipped and every event is a
chart apply or a placeholder credential minting, and on success every
service-account kubeconfig is the placeholder string `dumy-` + name. -/
theorem gardener_dry_run_placeholders (env : GardenerEnv) :
    (∀ ev ∈ (gardenerDo true env).1,
        ev = GEvent.applyChart ChartId.application ∨ ev = GEvent.applyChart ChartId.runtime
          ∨ ∃ sa, ev = GEvent.mintCredential sa false)
    ∧ (∀ out, (gardenerDo true env).2 = .ok out →
        out = ⟨"dumy-gardener-apiserver", "dumy-gardener-controller-manager",
               "dumy-gardener-scheduler", "dumy-gardener-admission-controller"⟩) := by
  rcases ha : env.helmCreateOrUpdate ChartId.application with ⟨e1⟩ | ⟨u1⟩ <;>
    rcases hr : env.helmCreateOrUpdate ChartId.runtime with ⟨e2⟩ | ⟨u2⟩ <;>
    refine ⟨fun ev hmem => ?_, fun out hout => ?_⟩ <;>
    simp_all [gardenerDo, getKubeConfigForServiceAccount] <;>
    rcases hmem with h | h | h | h | h | h <;> subst h <;> simp

theorem gardener_dry_run_placeholders_witness :
    GardenerKubeconfigs.mk "dumy-gardener-apiserver" "dumy-gardener-controller-manager"
        "dumy-gardener-scheduler" "dumy-gardener-admission-controller"
      = ⟨"dumy-gardener-apiserver", "dumy-gardener-controller-manager",
         "dumy-gardener-scheduler", "dumy-gardener-admission-controller"⟩ :=
  (gardener_dry_run_placeholders envAllOk).2
    ⟨"dumy-gardener-apiserver", "dumy-gardener-controller-manager",
     "dumy-gardener-scheduler", "dumy-gardener-admission-controller"⟩ (by decide)
